import Mathlib

/-!
Verification model of the Sprint Pulse repository.

The definitions below are a shallow embedding of the SQL schema, row level
security policies, triggers and stored procedure found in
src/supabase/migrations (20260203071900_init_db.sql and
20260211124400_create_survey_with_questions_rpc.sql), and of the Hono
route handlers for surveys, sprints and teams
(src/supabase/functions/api/routes and src/unnamed).

Modelling conventions:
- uuid identifiers are modelled as Nat;
- SQL dates (date columns and the YYYY-MM-DD strings of the Zod schemas,
  whose lexicographic order agrees with calendar order) are modelled as Nat;
- timestamptz values are modelled as Nat instants;
- a table is a list of row structures holding the columns the claims
  touch (free text columns such as description, goal, metric_category or
  options, and uuid primary keys of child rows, are omitted where no rule
  reads them);
- each storage statement issued by a route can also fail for external
  reasons (network, schema mismatch); this is modelled by an environment
  env : Nat -> Option String giving the injected failure message of the
  n-th statement of the request, if any;
- a Postgres error inside a statement or inside the stored procedure
  aborts the enclosing transaction, so a failing operation returns
  Except.error and leaves the caller state unchanged.
-/

namespace SprintPulse

abbrev Uid := Nat
abbrev AccountId := Nat
abbrev TeamId := Nat
abbrev SprintId := Nat
abbrev SurveyId := Nat

/-- A row of public.accounts (columns used by the claims: id,
is_test_tenant). -/
structure AccountRow where
  id : AccountId
  is_test_tenant : Bool
deriving DecidableEq, Repr

/-- A row of public.account_members. -/
structure AccountMemberRow where
  account_id : AccountId
  user_id : Uid
  role : String
deriving DecidableEq, Repr

/-- A row of public.team_members. -/
structure TeamMemberRow where
  team_id : TeamId
  user_id : Uid
  role : String
deriving DecidableEq, Repr

/-- A row of public.sprints (columns used by the claims). -/
structure SprintRow where
  id : SprintId
  team_id : TeamId
  account_id : AccountId
  start_date : Nat
  end_date : Nat
deriving DecidableEq, Repr

/-- Status column of public.work_items. -/
inductive WorkItemStatus
  | todo
  | in_progress
  | review
  | done
deriving DecidableEq, Repr

/-- A row of public.work_items (columns used by the claims). -/
structure WorkItemRow where
  id : Nat
  account_id : AccountId
  sprint_id : Option SprintId
  status : WorkItemStatus
  completed_at : Option Nat
deriving DecidableEq, Repr

/-- A row of public.surveys (columns used by the claims).  The table has
columns id, team_id, title, description, is_system_template, account_id,
trigger_event, created_at; it has no is_active column. -/
structure SurveyRow where
  id : SurveyId
  account_id : AccountId
  team_id : Option TeamId
  title : String
  is_system_template : Bool
deriving DecidableEq, Repr

/-- A row of public.survey_questions (columns used by the claims). -/
structure QuestionRow where
  survey_id : SurveyId
  question_text : String
  response_type : String
  order_index : Int
  is_required : Bool
deriving DecidableEq, Repr

/-- The database state: one list per table the claims touch. -/
structure Db where
  accounts : List AccountRow
  account_members : List AccountMemberRow
  team_members : List TeamMemberRow
  sprints : List SprintRow
  work_items : List WorkItemRow
  surveys : List SurveyRow
  survey_questions : List QuestionRow
deriving DecidableEq, Repr

/-- public.is_account_member(p_account_id): security definer helper,
true when an account_members row links auth.uid() to the account. -/
def is_account_member (db : Db) (u : Uid) (a : AccountId) : Bool :=
  db.account_members.any (fun m => m.account_id == a && m.user_id == u)

/-- public.is_team_member(p_team_id): security definer helper, true when
a team_members row links auth.uid() to the team. -/
def is_team_member (db : Db) (u : Uid) (t : TeamId) : Bool :=
  db.team_members.any (fun m => m.team_id == t && m.user_id == u)

/-- A team_members row with role lead links the user to the team (the
subcondition used by the Manage surveys and Manage questions policies). -/
def is_team_lead (db : Db) (u : Uid) (t : TeamId) : Bool :=
  db.team_members.any
    (fun m => m.team_id == t && m.user_id == u && m.role == "lead")

/-! ## Row level security policies -/

/-- Policy "Tenant Isolation: Sprints" (for all: select, insert, update,
delete): using and with check are both public.is_account_member(account_id). -/
def tenant_isolation_sprints (db : Db) (u : Uid) (s : SprintRow) : Bool :=
  is_account_member db u s.account_id

/-- Policy "Tenant Isolation: Work Items" (for all), same shape. -/
def tenant_isolation_work_items (db : Db) (u : Uid) (w : WorkItemRow) : Bool :=
  is_account_member db u w.account_id

/-- Policy "View surveys" (select): system templates (null team and
is_system_template) or is_team_member(team_id); is_team_member of a null
team_id is false. -/
def view_surveys_policy (db : Db) (u : Uid) (sv : SurveyRow) : Bool :=
  (sv.team_id == none && sv.is_system_template) ||
    (match sv.team_id with
      | some t => is_team_member db u t
      | none => false)

/-- Policy "Manage surveys" (for all): a team_members row with
tm.team_id = surveys.team_id, tm.user_id = auth.uid() and tm.role = lead;
a null team_id matches no row. -/
def manage_surveys_policy (db : Db) (u : Uid) (sv : SurveyRow) : Bool :=
  match sv.team_id with
  | some t => is_team_lead db u t
  | none => false

/-- Policy "Manage questions" (for all): a surveys row with
s.id = survey_questions.survey_id joined to a lead team_members row on
tm.team_id = s.team_id. -/
def manage_questions_policy (db : Db) (u : Uid) (q : QuestionRow) : Bool :=
  db.surveys.any (fun s =>
    s.id == q.survey_id &&
      (match s.team_id with
        | some t => is_team_lead db u t
        | none => false))

/-- Select access to a sprint: the permissive policy set for sprints is
the single for-all tenant isolation policy. -/
def can_select_sprint (db : Db) (u : Uid) (s : SprintRow) : Bool :=
  tenant_isolation_sprints db u s

/-- Insert access to a sprint (with check of the for-all policy). -/
def can_insert_sprint (db : Db) (u : Uid) (s : SprintRow) : Bool :=
  tenant_isolation_sprints db u s

/-- Update access to a sprint. -/
def can_update_sprint (db : Db) (u : Uid) (s : SprintRow) : Bool :=
  tenant_isolation_sprints db u s

/-- Delete access to a sprint. -/
def can_delete_sprint (db : Db) (u : Uid) (s : SprintRow) : Bool :=
  tenant_isolation_sprints db u s

/-- Select access to a work item. -/
def can_select_work_item (db : Db) (u : Uid) (w : WorkItemRow) : Bool :=
  tenant_isolation_work_items db u w

/-- Insert access to a work item. -/
def can_insert_work_item (db : Db) (u : Uid) (w : WorkItemRow) : Bool :=
  tenant_isolation_work_items db u w

/-- Update access to a work item. -/
def can_update_work_item (db : Db) (u : Uid) (w : WorkItemRow) : Bool :=
  tenant_isolation_work_items db u w

/-- Delete access to a work item. -/
def can_delete_work_item (db : Db) (u : Uid) (w : WorkItemRow) : Bool :=
  tenant_isolation_work_items db u w

/-- Select access to a survey: policies are permissive, so the View
surveys policy or the for-all Manage surveys policy grants it. -/
def can_select_survey (db : Db) (u : Uid) (sv : SurveyRow) : Bool :=
  view_surveys_policy db u sv || manage_surveys_policy db u sv

/-- Insert access to a survey: only the Manage surveys for-all policy
applies to insert (its using expression doubles as with check). -/
def can_insert_survey (db : Db) (u : Uid) (sv : SurveyRow) : Bool :=
  manage_surveys_policy db u sv

/-- Update access to a survey. -/
def can_update_survey (db : Db) (u : Uid) (sv : SurveyRow) : Bool :=
  manage_surveys_policy db u sv

/-- Delete access to a survey. -/
def can_delete_survey (db : Db) (u : Uid) (sv : SurveyRow) : Bool :=
  manage_surveys_policy db u sv

/-- Insert access to a survey question (Manage questions for-all policy). -/
def can_insert_question (db : Db) (u : Uid) (q : QuestionRow) : Bool :=
  manage_questions_policy db u q

/-! ## Accounts update: policy "Update own accounts"

The with check expression is
  (is_test_tenant = true) or
  (is_test_tenant is not distinct from
     (select is_test_tenant from public.accounts where id = id)).
Inside the scalar subquery both occurrences of id resolve to the inner
public.accounts, so the predicate id = id is a tautology and the subquery
ranges over every accounts row the select policies let the user see
(policy "View own accounts": is_account_member(id)).  A scalar subquery
returning more than one row raises an error; returning zero rows yields
null, and x is not distinct from null is false for non-null x.  The or is
evaluated left to right and short circuits. -/

/-- The is_test_tenant values of every accounts row visible to the user
through the View own accounts select policy. -/
def visible_test_flags (db : Db) (u : Uid) : List Bool :=
  (db.accounts.filter (fun r => is_account_member db u r.id)).map
    (fun r => r.is_test_tenant)

/-- The with check expression of policy "Update own accounts", evaluated
on the proposed new value of is_test_tenant.  Returns ok when the check
passes, and the Postgres error otherwise (either the policy violation or
the multi-row scalar subquery error). -/
def update_own_accounts_check (db : Db) (u : Uid) (newFlag : Bool) :
    Except String Unit :=
  if newFlag = true then .ok ()
  else
    match visible_test_flags db u with
    | [old] =>
        if newFlag = old then .ok ()
        else .error "new row violates row-level security policy for table accounts"
    | [] => .error "new row violates row-level security policy for table accounts"
    | _ => .error "more than one row returned by a subquery used as an expression"

/-- An update statement setting is_test_tenant of one account, issued by
user u.  If no visible row matches the target id (the using clause is
is_account_member(id)), zero rows are updated and the statement succeeds
without change; otherwise the with check runs and either the row is
updated or the whole statement errors, leaving the table unchanged. -/
def update_account (db : Db) (u : Uid) (a : AccountId) (newFlag : Bool) :
    Except String Db :=
  if (db.accounts.any (fun r => r.id == a)) && is_account_member db u a then
    match update_own_accounts_check db u newFlag with
    | .ok _ =>
        .ok { db with
          accounts := db.accounts.map (fun r =>
            if r.id == a then { r with is_test_tenant := newFlag } else r) }
    | .error e => .error e
  else .ok db

/-- One step of a sequence of is_test_tenant updates: a failing statement
leaves the state unchanged. -/
def apply_account_update (db : Db) (step : Uid × AccountId × Bool) : Db :=
  match update_account db step.1 step.2.1 step.2.2 with
  | .ok db2 => db2
  | .error _ => db

/-- The stored is_test_tenant value of an account. -/
def account_flag (db : Db) (a : AccountId) : Option Bool :=
  (db.accounts.find? (fun r => r.id == a)).map (fun r => r.is_test_tenant)

/-! ## Sprints: date invariant (constraint valid_dates, Zod schemas) -/

/-- Constraint valid_dates on public.sprints: end_date >= start_date. -/
def valid_dates (s : SprintRow) : Bool :=
  decide (s.start_date ≤ s.end_date)

/-- The refine step of CreateSprintSchema: end_date >= start_date
(string comparison of YYYY-MM-DD dates, which agrees with date order). -/
def create_sprint_schema_refine (startDate endDate : Nat) : Bool :=
  decide (startDate ≤ endDate)

/-- A partial update body for a sprint (only the date fields matter to
the claims; absent fields leave the column untouched). -/
structure SprintPatch where
  start_date : Option Nat
  end_date : Option Nat
deriving DecidableEq, Repr

/-- The refine step of UpdateSprintSchema: when both dates are supplied,
end_date >= start_date; otherwise the body passes validation. -/
def update_sprint_schema_refine (p : SprintPatch) : Bool :=
  match p.start_date, p.end_date with
  | some s, some e => decide (s ≤ e)
  | _, _ => true

/-- The row an update statement proposes: supplied columns replace the
stored ones, absent columns keep their stored values. -/
def apply_sprint_patch (row : SprintRow) (p : SprintPatch) : SprintRow :=
  { row with
    start_date := p.start_date.getD row.start_date,
    end_date := p.end_date.getD row.end_date }

/-- Insert of a sprint row: the valid_dates check constraint accepts or
rejects the whole statement. -/
def insert_sprint_db (row : SprintRow) : Except String SprintRow :=
  if valid_dates row then .ok row
  else .error "new row for relation sprints violates check constraint valid_dates"

/-- Update of a stored sprint row: the proposed row must satisfy
valid_dates, else the statement errors and the stored row is unchanged. -/
def update_sprint_db (row : SprintRow) (p : SprintPatch) :
    Except String SprintRow :=
  let c := apply_sprint_patch row p
  if valid_dates c then .ok c
  else .error "new row for relation sprints violates check constraint valid_dates"

/-- PATCH /:id of the sprints route: the body is validated by
UpdateSprintSchema (400 on refine failure), then the update statement
runs (500 on constraint failure).  Returns the stored row after the
request and the HTTP status. -/
def patch_sprint_route (row : SprintRow) (p : SprintPatch) :
    SprintRow × Nat :=
  if update_sprint_schema_refine p then
    match update_sprint_db row p with
    | .ok r => (r, 200)
    | .error _ => (row, 500)
  else (row, 400)

/-- POST / of the sprints route: the body is validated by
CreateSprintSchema, then the insert statement runs.  Returns the created
row (if any) and the HTTP status. -/
def create_sprint_route (row : SprintRow) : Option SprintRow × Nat :=
  if create_sprint_schema_refine row.start_date row.end_date then
    match insert_sprint_db row with
    | .ok r => (some r, 201)
    | .error _ => (none, 500)
  else (none, 400)

/-! ## Work items: trigger handle_work_item_completion -/

/-- The column assignments of an update statement on a work item: the
status value, and the completed_at column when the statement sets it
(none = column not mentioned, so the stored value is kept). -/
structure WorkItemUpdate where
  status : WorkItemStatus
  completed_at : Option (Option Nat)
deriving DecidableEq, Repr

/-- The new row as proposed by the update statement, before triggers. -/
def proposed_work_item (old : WorkItemRow) (u : WorkItemUpdate) :
    WorkItemRow :=
  { old with
    status := u.status,
    completed_at := u.completed_at.getD old.completed_at }

/-- Trigger public.handle_work_item_completion (before update): if moving
to done, stamp completed_at = now; if moving away from done, clear it;
otherwise return new unchanged. -/
def handle_work_item_completion (old new : WorkItemRow) (now : Nat) :
    WorkItemRow :=
  if new.status = .done ∧ old.status ≠ .done then
    { new with completed_at := some now }
  else if new.status ≠ .done ∧ old.status = .done then
    { new with completed_at := none }
  else new

/-- Effect of one update statement on a stored work item row: the
proposed row passes through the before-update trigger. -/
def update_work_item (old : WorkItemRow) (u : WorkItemUpdate) (now : Nat) :
    WorkItemRow :=
  handle_work_item_completion old (proposed_work_item old u) now

/-- A sequence of update statements applied in order, each with its
execution instant. -/
def apply_work_item_updates (w : WorkItemRow)
    (l : List (WorkItemUpdate × Nat)) : WorkItemRow :=
  l.foldl (fun acc p => update_work_item acc p.1 p.2) w

/-- The completion invariant claimed for work items: completed_at is
non-null exactly when status is done. -/
def work_item_inv (w : WorkItemRow) : Prop :=
  w.completed_at.isSome = true ↔ w.status = .done

instance (w : WorkItemRow) : Decidable (work_item_inv w) := by
  unfold work_item_inv; infer_instance

/-! ## Sprint deletion (foreign keys of public.work_items) -/

/-- Deleting a sprint row at the database level.  The foreign key
work_items.sprint_id is declared on delete set null, so referencing work
items survive with sprint_id cleared (the migration comments: if sprint
deleted, item moves to backlog); within the modelled tables nothing
blocks the deletion, so the statement succeeds. -/
def delete_sprint_db (db : Db) (sid : SprintId) : Except String Db :=
  .ok { db with
    sprints := db.sprints.filter (fun s => !(s.id == sid)),
    work_items := db.work_items.map (fun w =>
      if w.sprint_id == some sid then { w with sprint_id := none } else w) }

/-- DELETE /:id of the sprints route: a foreign key violation error
(Postgres code 23503) is mapped to 409 with a message naming work items;
any other error maps to 500; success maps to 200.  Returns the state
after the request, the HTTP status and the response message. -/
def delete_sprint_route (db : Db) (sid : SprintId) : Db × Nat × String :=
  match delete_sprint_db db sid with
  | .ok db2 => (db2, 200, "Sprint deleted")
  | .error e =>
      if e == "23503" then
        (db, 409,
          "Cannot delete sprint: it still has associated work items. Remove them first.")
      else (db, 500, e)

/-! ## Survey creation

Two code paths create a survey together with its questions:
- the stored procedure public.create_survey_with_questions (security
  definer: its inserts bypass row level security; it re-checks account
  membership itself and raises Access Denied otherwise);
- the pseudo-transaction POST / handler of the surveys route (insert the
  survey, insert the questions, and on a questions failure delete the
  just-created survey and surface the questions error).

Both paths copy the validated question_type value (Zod QuestionTypeEnum:
scale, text, boolean) into the survey_questions.response_type column,
whose check constraint admits only scale_1_5, text, single_select and
emoji_mood.

Both paths also list an is_active column in their surveys insert, which
the surveys table does not have; in this model that statement-level
schema mismatch is one of the external failures the env parameter can
inject (the row structure carries only the real columns). -/

/-- Zod QuestionTypeEnum of the shared schemas: scale, text, boolean. -/
inductive QuestionTypeEnum
  | scale
  | text
  | boolean
deriving DecidableEq, Repr

/-- The string value carried by a validated question_type field. -/
def questionTypeStr : QuestionTypeEnum → String
  | .scale => "scale"
  | .text => "text"
  | .boolean => "boolean"

/-- The check constraint on survey_questions.response_type:
response_type in (scale_1_5, text, single_select, emoji_mood). -/
def survey_questions_response_type_check (t : String) : Bool :=
  t == "scale_1_5" || t == "text" || t == "single_select" || t == "emoji_mood"

/-- A question of a validated CreateSurveySchema body (Zod has already
applied the is_required default of true). -/
structure InputQuestion where
  question_text : String
  question_type : QuestionTypeEnum
  order_index : Int
  is_required : Bool
deriving DecidableEq, Repr

/-- A validated CreateSurveySchema body. -/
structure CreateSurveyInput where
  account_id : AccountId
  team_id : Option TeamId
  title : String
  is_active : Bool
  questions : List InputQuestion
deriving DecidableEq, Repr

/-- A question element of the p_questions jsonb argument of the stored
procedure (is_required may be absent: the procedure coalesces it to
true). -/
structure RpcQuestion where
  question_text : String
  question_type : QuestionTypeEnum
  order_index : Int
  is_required : Option Bool
deriving DecidableEq, Repr

/-- The arguments of public.create_survey_with_questions. -/
structure RpcArgs where
  p_account_id : AccountId
  p_team_id : Option TeamId
  p_title : String
  p_is_active : Bool
  p_questions : List RpcQuestion
deriving DecidableEq, Repr

/-- The largest survey id in use. -/
def maxSurveyId (db : Db) : Nat :=
  db.surveys.foldl (fun m r => max m r.id) 0

/-- A fresh survey id (gen_random_uuid of the insert). -/
def freshSurveyId (db : Db) : SurveyId :=
  maxSurveyId db + 1

/-- The surveys row created for a request (is_system_template defaults
to false; the is_active input value has no surveys column to land in). -/
def newSurveyRow (db : Db) (accountId : AccountId) (teamId : Option TeamId)
    (title : String) : SurveyRow :=
  { id := freshSurveyId db, account_id := accountId, team_id := teamId,
    title := title, is_system_template := false }

/-- The survey_questions row the stored procedure builds from one
p_questions element: question_type is copied into response_type, and
is_required is coalesced to true. -/
def rpcQuestionRow (sid : SurveyId) (q : RpcQuestion) : QuestionRow :=
  { survey_id := sid, question_text := q.question_text,
    response_type := questionTypeStr q.question_type,
    order_index := q.order_index, is_required := q.is_required.getD true }

/-- The bulk insert of question rows: the whole statement fails on an
injected external failure, or when any row violates the response_type
check constraint; survey_questions has no other check the model tracks.
Returns none on success and the error message otherwise.  (Used by the
stored procedure, whose security definer context bypasses row level
security.) -/
def rpc_questions_insert_error (rows : List QuestionRow)
    (env : Nat → Option String) : Option String :=
  match env 1 with
  | some m => some m
  | none =>
      if rows.all (fun r => survey_questions_response_type_check r.response_type)
      then none
      else some "new row for relation survey_questions violates check constraint survey_questions_response_type_check"

/-- public.create_survey_with_questions: check account membership (raise
Access Denied otherwise), insert the survey, bulk-insert the questions,
return the new survey id.  The procedure body runs inside the calling
transaction: any raised error aborts it, so the error branch carries no
state.  env injects external failures of the two insert statements
(statement 0: surveys insert, statement 1: questions insert). -/
def create_survey_with_questions (db : Db) (uid : Uid) (args : RpcArgs)
    (env : Nat → Option String) : Except String (Db × SurveyId) :=
  if is_account_member db uid args.p_account_id then
    match env 0 with
    | some m => .error m
    | none =>
        match rpc_questions_insert_error
            (args.p_questions.map (rpcQuestionRow (freshSurveyId db))) env with
        | some m => .error m
        | none =>
            .ok ({ db with
                surveys := db.surveys ++
                  [newSurveyRow db args.p_account_id args.p_team_id
                    args.p_title],
                survey_questions := db.survey_questions ++
                  args.p_questions.map (rpcQuestionRow (freshSurveyId db)) },
              freshSurveyId db)
  else .error "Access Denied: User is not a member of this account"

/-- The state and outcome seen by the caller of the stored procedure:
an error rolls the transaction back, leaving the state as it was. -/
def run_create_survey_rpc (db : Db) (uid : Uid) (args : RpcArgs)
    (env : Nat → Option String) : Db × Except String SurveyId :=
  match create_survey_with_questions db uid args env with
  | .ok (db2, sid) => (db2, .ok sid)
  | .error e => (db, .error e)

/-! ## The pseudo-transaction POST / handler of the surveys route -/

/-- The body of a surveys route response. -/
inductive SurveysRouteBody
  | err (msg : String)
  | created (survey : SurveyRow) (questions : List QuestionRow)
deriving DecidableEq, Repr

/-- Outcome of a request against the surveys route: the database state
after the request, the HTTP status and the body. -/
structure RouteResult where
  db : Db
  status : Nat
  body : SurveysRouteBody
deriving DecidableEq, Repr

/-- The survey insert issued through the anon client: row level security
applies, and the only policy granting insert on surveys is the for-all
Manage surveys policy (evaluated as with check on the new row). -/
def insert_survey_rls (db : Db) (u : Uid) (row : SurveyRow) :
    Except String Db :=
  if manage_surveys_policy db u row then
    .ok { db with surveys := db.surveys ++ [row] }
  else .error "new row violates row-level security policy for table surveys"

/-- The question rows the route builds from the validated body (step 2
of the handler): question_type is copied into response_type. -/
def routeQuestionRows (sid : SurveyId) (qs : List InputQuestion) :
    List QuestionRow :=
  qs.map (fun q =>
    { survey_id := sid, question_text := q.question_text,
      response_type := questionTypeStr q.question_type,
      order_index := q.order_index, is_required := q.is_required })

/-- The questions bulk insert issued through the anon client: an injected
external failure, a Manage questions policy violation on some row, or a
response_type check constraint violation on some row fails the whole
statement.  Returns none on success and the error message otherwise. -/
def route_questions_insert_error (db : Db) (u : Uid)
    (rows : List QuestionRow) (env : Nat → Option String) : Option String :=
  match env 1 with
  | some m => some m
  | none =>
      if rows.all (fun r => manage_questions_policy db u r) then
        if rows.all (fun r => survey_questions_response_type_check r.response_type)
        then none
        else some "new row for relation survey_questions violates check constraint survey_questions_response_type_check"
      else some "new row violates row-level security policy for table survey_questions"

/-- The compensating delete issued through the anon client: it removes
the surveys rows with the given id that the Manage surveys using clause
lets the user touch, and the on delete cascade of
survey_questions.survey_id removes the questions of every removed
survey. -/
def delete_survey_rls (db : Db) (u : Uid) (sid : SurveyId) : Db :=
  let removed := db.surveys.any (fun s =>
    s.id == sid && manage_surveys_policy db u s)
  { db with
    surveys := db.surveys.filter (fun s =>
      !(s.id == sid && manage_surveys_policy db u s)),
    survey_questions := db.survey_questions.filter (fun q =>
      !(q.survey_id == sid && removed)) }

/-- POST / of the surveys route, pseudo-transaction variant: insert the
survey (500 on failure), insert the questions, and on a questions
failure delete the just-created survey (best effort, result ignored) and
answer 500 with the questions error message; on success answer 201 with
the survey and its questions.  env injects external failures (statement
0: survey insert, statement 1: questions insert). -/
def post_surveys_two_step (db : Db) (u : Uid) (input : CreateSurveyInput)
    (env : Nat → Option String) : RouteResult :=
  match env 0 with
  | some m => ⟨db, 500, .err m⟩
  | none =>
      let srow := newSurveyRow db input.account_id input.team_id input.title
      match insert_survey_rls db u srow with
      | .error m => ⟨db, 500, .err m⟩
      | .ok db1 =>
          let qrows := routeQuestionRows (freshSurveyId db) input.questions
          match route_questions_insert_error db1 u qrows env with
          | some m => ⟨delete_survey_rls db1 u (freshSurveyId db), 500, .err m⟩
          | none =>
              ⟨{ db1 with
                  survey_questions := db1.survey_questions ++ qrows },
                201, .created srow qrows⟩

/-! ## Team creation (POST / of the teams route)

The handler inserts the team, then inserts the lead membership for the
caller; if the membership insert fails after the team insert succeeded,
no rollback is attempted and the response reports the fixed message, the
raw membership error and the created team.  The storage outcomes are
inputs of the model (the handler only branches on the result values it
awaited), and the issued statements are recorded so that the absence of
any compensating delete is expressible. -/

/-- A created public.teams row as returned by the insert. -/
structure TeamRow where
  id : TeamId
  account_id : AccountId
  name : String
deriving DecidableEq, Repr

/-- A storage statement the teams handler can issue. -/
inductive TeamsCmd
  | insertTeam (account_id : AccountId) (name : String)
  | insertTeamMember (team_id : TeamId) (user_id : Uid) (role : String)
  | deleteTeam (id : TeamId)
deriving DecidableEq, Repr

/-- The response of the teams POST handler. -/
inductive TeamsPostBody
  | unauthorized
  | err (msg : String)
  | acceptAndReport (msg : String) (details : String) (team : TeamRow)
  | created (team : TeamRow)
deriving DecidableEq, Repr

/-- POST / of the teams route: auth check, team insert, lead membership
insert.  user is the authenticated identity (none = 401); teamRes is the
outcome of the team insert; memberErr is the error of the membership
insert, if it failed.  Returns the issued statements, the HTTP status
and the body. -/
def post_teams (user : Option Uid) (accountId : AccountId) (name : String)
    (teamRes : Except String TeamRow) (memberErr : Option String) :
    List TeamsCmd × Nat × TeamsPostBody :=
  match user with
  | none => ([], 401, .unauthorized)
  | some uid =>
      match teamRes with
      | .error m => ([.insertTeam accountId name], 500, .err m)
      | .ok team =>
          match memberErr with
          | some m =>
              ([.insertTeam accountId name,
                .insertTeamMember team.id uid "lead"], 500,
                .acceptAndReport "Team created but failed to assign lead role." m team)
          | none =>
              ([.insertTeam accountId name,
                .insertTeamMember team.id uid "lead"], 201, .created team)

/-! ## Helper lemmas -/

/-- The running maximum of survey ids never drops below its seed. -/
theorem foldl_max_le_seed (l : List SurveyRow) (init : Nat) :
    init ≤ l.foldl (fun m r => max m r.id) init := by
  induction l generalizing init with
  | nil => exact le_refl _
  | cons a t ih => exact le_trans (le_max_left _ _) (ih _)

/-- Every survey id in a list is bounded by the running maximum. -/
theorem surveys_id_le_foldl_max (l : List SurveyRow) (s : SurveyRow)
    (h : s ∈ l) (init : Nat) :
    s.id ≤ l.foldl (fun m r => max m r.id) init := by
  induction l generalizing init with
  | nil => cases h
  | cons a t ih =>
      rcases List.mem_cons.mp h with rfl | hmem
      · exact le_trans (le_max_right init s.id) (foldl_max_le_seed t _)
      · exact ih hmem _

/-- A fresh survey id differs from every stored survey id. -/
theorem mem_surveys_id_ne_fresh (db : Db) (s : SurveyRow)
    (h : s ∈ db.surveys) : s.id ≠ freshSurveyId db := by
  have hle : s.id ≤ maxSurveyId db := surveys_id_le_foldl_max _ _ h 0
  exact Nat.ne_of_lt (Nat.lt_succ_of_le hle)

/-- A lead membership row is in particular a membership row. -/
theorem is_team_lead_member (db : Db) (u : Uid) (t : TeamId)
    (h : is_team_lead db u t = true) : is_team_member db u t = true := by
  unfold is_team_lead at h
  unfold is_team_member
  rcases List.any_eq_true.mp h with ⟨m, hm, hp⟩
  refine List.any_eq_true.mpr ⟨m, hm, ?_⟩
  simp only [Bool.and_eq_true] at hp ⊢
  exact ⟨hp.1.1, hp.1.2⟩

/-- The only Zod question_type value that passes the response_type check
constraint is text. -/
theorem check_passes_iff_text (qt : QuestionTypeEnum) :
    survey_questions_response_type_check (questionTypeStr qt) = true ↔
      qt = .text := by
  cases qt <;> simp [survey_questions_response_type_check, questionTypeStr]

/-- Claim C9 (confirmed): in team creation, when the team insert succeeds
and the lead membership insert fails, the handler issues no compensating
delete, answers 500, and the body reports the created team together with
the membership failure (fixed message plus the raw error details). -/
theorem teams_post_accept_and_report (uid : Uid) (accountId : AccountId)
    (name : String) (team : TeamRow) (m : String) :
    (∀ t, TeamsCmd.deleteTeam t ∉
        (post_teams (some uid) accountId name (.ok team) (some m)).1) ∧
    (post_teams (some uid) accountId name (.ok team) (some m)).2.1 = 500 ∧
    (post_teams (some uid) accountId name (.ok team) (some m)).2.2 =
      .acceptAndReport "Team created but failed to assign lead role." m team := by
  refine ⟨?_, rfl, rfl⟩
  intro t
  simp [post_teams]

/-- Witness for the C9 theorem at a concrete request. -/
theorem teams_post_accept_and_report_witness :
    TeamsCmd.deleteTeam 2 ∉
      (post_teams (some 1) 0 "Core" (.ok ⟨2, 0, "Core"⟩)
        (some "duplicate key value")).1 ∧
    (post_teams (some 1) 0 "Core" (.ok ⟨2, 0, "Core"⟩)
      (some "duplicate key value")).2.1 = 500 ∧
    (post_teams (some 1) 0 "Core" (.ok ⟨2, 0, "Core"⟩)
      (some "duplicate key value")).2.2 =
      .acceptAndReport "Team created but failed to assign lead role."
        "duplicate key value" ⟨2, 0, "Core"⟩ := by
  have h := teams_post_accept_and_report 1 0 "Core" ⟨2, 0, "Core"⟩
    "duplicate key value"
  exact ⟨h.1 2, h.2.1, h.2.2⟩

/-- Claim C4 (counterexample): the completion trigger only fires on
transitions to or from done.  A todo to in_progress update that supplies
completed_at persists the supplied value, breaking the claimed invariant
and the claimed always-overridden rule; a done to done update that
supplies completed_at replaces the stored stamp, breaking the claimed
unchanged rule. -/
theorem work_item_completion_counterexample :
    update_work_item ⟨0, 0, none, .todo, none⟩
        ⟨.in_progress, some (some 5)⟩ 9 =
      ⟨0, 0, none, .in_progress, some 5⟩ ∧
    ¬ work_item_inv (update_work_item ⟨0, 0, none, .todo, none⟩
        ⟨.in_progress, some (some 5)⟩ 9) ∧
    update_work_item ⟨0, 0, none, .done, some 3⟩ ⟨.done, some (some 8)⟩ 9 =
      ⟨0, 0, none, .done, some 8⟩ := by
  decide

/-- One update that does not set completed_at preserves the completion
invariant. -/
theorem work_item_inv_step (w : WorkItemRow) (u : WorkItemUpdate)
    (now : Nat) (h : work_item_inv w) (hs : u.completed_at = none) :
    work_item_inv (update_work_item w u now) := by
  unfold work_item_inv update_work_item handle_work_item_completion
    proposed_work_item at *
  rw [hs]
  by_cases h1 : u.status = WorkItemStatus.done <;>
    by_cases h2 : w.status = WorkItemStatus.done <;>
      simp_all

/-- Claim C4 (amended theorem): for update sequences that never set the
completed_at column, the invariant completed_at non-null iff status done
is preserved; a transition to done stamps completed_at = now even when
the statement supplies a value, a transition away from done clears it
even when the statement supplies a value, and a done to done update that
does not set the column leaves the row unchanged. -/
theorem work_item_completion_amended (w : WorkItemRow)
    (l : List (WorkItemUpdate × Nat)) (u : WorkItemUpdate) (now : Nat) :
    (work_item_inv w → (∀ p ∈ l, p.1.completed_at = none) →
      work_item_inv (apply_work_item_updates w l)) ∧
    (w.status ≠ .done → u.status = .done →
      (update_work_item w u now).completed_at = some now ∧
      (update_work_item w u now).status = .done) ∧
    (w.status = .done → u.status ≠ .done →
      (update_work_item w u now).completed_at = none) ∧
    (w.status = .done → u.status = .done → u.completed_at = none →
      update_work_item w u now = w) := by
  refine ⟨?_, ?_, ?_, ?_⟩
  · intro h hall
    induction l generalizing w with
    | nil => simpa [apply_work_item_updates] using h
    | cons p t ih =>
        have hstep := work_item_inv_step w p.1 p.2 h
          (hall p (List.mem_cons_self p t))
        have htail : ∀ q ∈ t, q.1.completed_at = none := fun q hq =>
          hall q (List.mem_cons_of_mem p hq)
        simpa [apply_work_item_updates] using
          ih (update_work_item w p.1 p.2) hstep htail
  · intro h1 h2
    unfold update_work_item handle_work_item_completion proposed_work_item
    simp [h1, h2]
  · intro h1 h2
    unfold update_work_item handle_work_item_completion proposed_work_item
    simp [h1, h2]
  · intro h1 h2 h3
    cases w
    simp_all [update_work_item, handle_work_item_completion,
      proposed_work_item]

/-- Witness for the amended C4 theorem at concrete inputs. -/
theorem work_item_completion_amended_witness :
    work_item_inv (apply_work_item_updates ⟨0, 0, none, .todo, none⟩
      [(⟨.done, none⟩, 4), (⟨.review, none⟩, 7)]) ∧
    (update_work_item ⟨1, 0, none, .todo, none⟩ ⟨.done, some (some 2)⟩ 11).completed_at
      = some 11 ∧
    (update_work_item ⟨2, 0, none, .done, some 3⟩ ⟨.review, some (some 2)⟩ 11).completed_at
      = none ∧
    update_work_item ⟨3, 0, none, .done, some 3⟩ ⟨.done, none⟩ 11 =
      ⟨3, 0, none, .done, some 3⟩ := by
  refine ⟨?_, ?_, ?_, ?_⟩
  · exact (work_item_completion_amended ⟨0, 0, none, .todo, none⟩
      [(⟨.done, none⟩, 4), (⟨.review, none⟩, 7)] ⟨.done, none⟩ 0).1
      (by decide) (by decide)
  · exact ((work_item_completion_amended ⟨1, 0, none, .todo, none⟩ []
      ⟨.done, some (some 2)⟩ 11).2.1 (by decide) rfl).1
  · exact (work_item_completion_amended ⟨2, 0, none, .done, some 3⟩ []
      ⟨.review, some (some 2)⟩ 11).2.2.1 rfl (by decide)
  · exact (work_item_completion_amended ⟨3, 0, none, .done, some 3⟩ []
      ⟨.done, none⟩ 11).2.2.2 rfl rfl rfl

/-- Claim C5 (confirmed): end_date >= start_date holds after every
successful sprint create or update; a violating create or update is
rejected and leaves the stored row unchanged; and a partial update that
supplies only one date field is checked against the existing stored
value of the other (the proposed row mixes the supplied value with the
stored one before the valid_dates constraint runs). -/
theorem sprint_dates_invariant (row : SprintRow) (p : SprintPatch)
    (r : SprintRow) (s2 e2 : Nat) :
    (∀ c st, create_sprint_route r = (some c, st) →
      valid_dates c = true ∧ c = r ∧ st = 201) ∧
    (valid_dates r = false → (create_sprint_route r).1 = none) ∧
    (∀ r2 st, patch_sprint_route row p = (r2, st) →
      (st = 200 → valid_dates r2 = true) ∧ (st ≠ 200 → r2 = row)) ∧
    (p.start_date = none → p.end_date = some e2 →
      ((patch_sprint_route row p).2 = 200 ↔ row.start_date ≤ e2) ∧
      (patch_sprint_route row p).1.start_date = row.start_date) ∧
    (p.end_date = none → p.start_date = some s2 →
      ((patch_sprint_route row p).2 = 200 ↔ s2 ≤ row.end_date) ∧
      (patch_sprint_route row p).1.end_date = row.end_date) := by
  refine ⟨?_, ?_, ?_, ?_, ?_⟩
  · intro c st h
    by_cases hv : r.start_date ≤ r.end_date
    · have hroute : create_sprint_route r = (some r, 201) := by
        simp [create_sprint_route, create_sprint_schema_refine,
          insert_sprint_db, valid_dates, hv]
      rw [hroute] at h
      injection h with h1 h2
      injection h1 with h1
      subst h1
      exact ⟨by simpa [valid_dates] using hv, rfl, h2.symm⟩
    · have hroute : create_sprint_route r = (none, 400) := by
        simp [create_sprint_route, create_sprint_schema_refine, hv]
      rw [hroute] at h
      simp at h
  · intro hv
    unfold create_sprint_route create_sprint_schema_refine
    have hv2 : decide (r.start_date ≤ r.end_date) = false := by
      simpa [valid_dates] using hv
    rw [hv2]
    simp
  · intro r2 st h
    unfold patch_sprint_route update_sprint_db at h
    by_cases hz : update_sprint_schema_refine p = true
    · rw [if_pos hz] at h
      by_cases hv : valid_dates (apply_sprint_patch row p)
      · rw [if_pos hv] at h
        injection h with h1 h2
        exact ⟨fun _ => by rw [← h1]; exact hv, fun hne => absurd h2.symm hne⟩
      · rw [if_neg hv] at h
        injection h with h1 h2
        constructor
        · intro h200; rw [← h2] at h200; simp at h200
        · intro _; exact h1.symm
    · rw [if_neg hz] at h
      injection h with h1 h2
      constructor
      · intro h200; rw [← h2] at h200; simp at h200
      · intro _; exact h1.symm
  · intro hs he
    unfold patch_sprint_route update_sprint_db apply_sprint_patch
      update_sprint_schema_refine valid_dates
    rw [hs, he]
    by_cases hv : row.start_date ≤ e2
    · simp [hv]
    · simp [hv]
  · intro he hs
    unfold patch_sprint_route update_sprint_db apply_sprint_patch
      update_sprint_schema_refine valid_dates
    rw [hs, he]
    by_cases hv : s2 ≤ row.end_date
    · simp [hv]
    · simp [hv]

/-- Witness for the C5 theorem at concrete inputs: a valid create, a
rejected create, a rejected full update that leaves the row unchanged,
and the two single-field partial updates checked against the stored
other field. -/
theorem sprint_dates_invariant_witness :
    create_sprint_route ⟨1, 0, 0, 10, 20⟩ = (some ⟨1, 0, 0, 10, 20⟩, 201) ∧
    (create_sprint_route ⟨1, 0, 0, 20, 10⟩).1 = none ∧
    patch_sprint_route ⟨1, 0, 0, 10, 20⟩ ⟨some 30, some 25⟩ =
      (⟨1, 0, 0, 10, 20⟩, 400) ∧
    ((patch_sprint_route ⟨1, 0, 0, 10, 20⟩ ⟨none, some 5⟩).2 = 200 ↔
      (10 : Nat) ≤ 5) ∧
    ((patch_sprint_route ⟨1, 0, 0, 10, 20⟩ ⟨some 15, none⟩).2 = 200 ↔
      (15 : Nat) ≤ 20) := by
  refine ⟨?_, ?_, ?_, ?_, ?_⟩
  · have h := (sprint_dates_invariant ⟨1, 0, 0, 10, 20⟩ ⟨none, none⟩
      ⟨1, 0, 0, 10, 20⟩ 0 0).1
    by_cases hc : create_sprint_route ⟨1, 0, 0, 10, 20⟩ =
        (some ⟨1, 0, 0, 10, 20⟩, 201)
    · exact hc
    · exact absurd (by decide) hc
  · exact (sprint_dates_invariant ⟨1, 0, 0, 10, 20⟩ ⟨none, none⟩
      ⟨1, 0, 0, 20, 10⟩ 0 0).2.1 (by decide)
  · have h := ((sprint_dates_invariant ⟨1, 0, 0, 10, 20⟩ ⟨some 30, some 25⟩
      ⟨1, 0, 0, 10, 20⟩ 0 0).2.2.1 (patch_sprint_route ⟨1, 0, 0, 10, 20⟩
        ⟨some 30, some 25⟩).1 (patch_sprint_route ⟨1, 0, 0, 10, 20⟩
        ⟨some 30, some 25⟩).2 rfl).2
    have h400 : (patch_sprint_route ⟨1, 0, 0, 10, 20⟩
        ⟨some 30, some 25⟩).2 = 400 := by decide
    have hrow := h (by rw [h400]; decide)
    have : patch_sprint_route ⟨1, 0, 0, 10, 20⟩ ⟨some 30, some 25⟩ =
        ((patch_sprint_route ⟨1, 0, 0, 10, 20⟩ ⟨some 30, some 25⟩).1,
          (patch_sprint_route ⟨1, 0, 0, 10, 20⟩ ⟨some 30, some 25⟩).2) := rfl
    rw [this, hrow, h400]
  · exact ((sprint_dates_invariant ⟨1, 0, 0, 10, 20⟩ ⟨none, some 5⟩
      ⟨1, 0, 0, 10, 20⟩ 0 5).2.2.2.1 rfl rfl).1
  · exact ((sprint_dates_invariant ⟨1, 0, 0, 10, 20⟩ ⟨some 15, none⟩
      ⟨1, 0, 0, 10, 20⟩ 15 0).2.2.2.2 rfl rfl).1

/-- A state with one sprint and one work item referencing it. -/
def sprintDeleteDemoDb : Db :=
  { accounts := [], account_members := [], team_members := [],
    sprints := [⟨1, 0, 0, 10, 20⟩],
    work_items := [⟨4, 0, some 1, .todo, none⟩],
    surveys := [], survey_questions := [] }

/-- Claim C3 (counterexample): deleting a sprint that one work item
references is not blocked: the statement succeeds (the foreign key is on
delete set null), the route answers 200 Sprint deleted, and the work
item survives with sprint_id cleared. -/
theorem sprint_delete_counterexample :
    delete_sprint_db sprintDeleteDemoDb 1 =
      .ok { accounts := [], account_members := [], team_members := [],
            sprints := [],
            work_items := [⟨4, 0, none, .todo, none⟩],
            surveys := [], survey_questions := [] } ∧
    (delete_sprint_route sprintDeleteDemoDb 1).2.1 = 200 ∧
    (delete_sprint_route sprintDeleteDemoDb 1).2.2 = "Sprint deleted" := by
  refine ⟨rfl, by decide, by decide⟩

/-- Claim C3 (amended theorem): sprint deletion always succeeds against
the modelled tables, whether or not work items reference the sprint;
each referencing work item survives with sprint_id set to null, every
other work item survives unchanged, no work item is deleted, and the
route answers 200 Sprint deleted. -/
theorem sprint_delete_amended (db : Db) (sid : SprintId) :
    (delete_sprint_db db sid).isOk = true ∧
    ∀ db2, delete_sprint_db db sid = .ok db2 →
      (∀ s ∈ db2.sprints, s.id ≠ sid) ∧
      (∀ w ∈ db.work_items, w.sprint_id = some sid →
        { w with sprint_id := none } ∈ db2.work_items) ∧
      (∀ w ∈ db.work_items, w.sprint_id ≠ some sid → w ∈ db2.work_items) ∧
      (∀ w2 ∈ db2.work_items, w2.sprint_id ≠ some sid) ∧
      db2.work_items.length = db.work_items.length ∧
      delete_sprint_route db sid = (db2, 200, "Sprint deleted") := by
  constructor
  · rfl
  · intro db2 h
    unfold delete_sprint_db at h
    injection h with h
    subst h
    refine ⟨?_, ?_, ?_, ?_, ?_, ?_⟩
    · intro s hs
      have := List.mem_filter.mp hs
      simpa using this.2
    · intro w hw hsid
      refine List.mem_map.mpr ⟨w, hw, ?_⟩
      rw [if_pos (by simp [hsid])]
    · intro w hw hsid
      refine List.mem_map.mpr ⟨w, hw, ?_⟩
      rw [if_neg (by simpa using hsid)]
    · intro w2 hw2
      rcases List.mem_map.mp hw2 with ⟨w, _, hmap⟩
      by_cases hc : w.sprint_id == some sid
      · rw [if_pos hc] at hmap
        rw [← hmap]
        simp
      · rw [if_neg hc] at hmap
        rw [← hmap]
        simpa using hc
    · exact List.length_map _ _
    · unfold delete_sprint_route delete_sprint_db
      rfl

/-- Witness for the amended C3 theorem at the demo state. -/
theorem sprint_delete_amended_witness :
    ({ accounts := [], account_members := [], team_members := [],
       sprints := [],
       work_items := [⟨4, 0, none, WorkItemStatus.todo, none⟩],
       surveys := [], survey_questions := [] } : Db).work_items.length =
      sprintDeleteDemoDb.work_items.length ∧
    (⟨4, 0, none, WorkItemStatus.todo, none⟩ : WorkItemRow) ∈
      ({ accounts := [], account_members := [], team_members := [],
         sprints := [],
         work_items := [⟨4, 0, none, WorkItemStatus.todo, none⟩],
         surveys := [], survey_questions := [] } : Db).work_items := by
  have h := (sprint_delete_amended sprintDeleteDemoDb 1).2
    { accounts := [], account_members := [], team_members := [],
      sprints := [],
      work_items := [⟨4, 0, none, WorkItemStatus.todo, none⟩],
      surveys := [], survey_questions := [] } rfl
  refine ⟨h.2.2.2.2.1, ?_⟩
  exact h.2.1 ⟨4, 0, some 1, WorkItemStatus.todo, none⟩ (by decide) rfl

/-- A state with one account owning a system-template survey, and an
actor holding no membership of any kind. -/
def tenantDemoDb : Db :=
  { accounts := [⟨0, false⟩], account_members := [], team_members := [],
    sprints := [], work_items := [],
    surveys := [⟨3, 0, none, "Template", true⟩], survey_questions := [] }

/-- Claim C1 (counterexample): an actor with no AccountMembership in the
owning account of a system-template survey may nevertheless read it: the
View surveys policy grants select on system templates (null team and
is_system_template) to any authenticated actor, so not every operation
is denied to non-members. -/
theorem tenant_isolation_counterexample :
    is_account_member tenantDemoDb 7 0 = false ∧
    can_select_survey tenantDemoDb 7 ⟨3, 0, none, "Template", true⟩ = true := by
  decide

/-- Claim C1 (amended theorem): an actor with no AccountMembership in
the owning account is denied every operation on sprints and work items
of that account (the for-all tenant isolation policies).  For a survey
of that account, an actor who moreover holds no TeamMembership in the
survey team is denied insert, update and delete, and is denied select
exactly unless the survey is a system template (null team and
is_system_template), which any authenticated actor may read. -/
theorem tenant_isolation_amended (db : Db) (u : Uid) (s : SprintRow)
    (w : WorkItemRow) (sv : SurveyRow) :
    (is_account_member db u s.account_id = false →
      can_select_sprint db u s = false ∧ can_insert_sprint db u s = false ∧
      can_update_sprint db u s = false ∧ can_delete_sprint db u s = false) ∧
    (is_account_member db u w.account_id = false →
      can_select_work_item db u w = false ∧
      can_insert_work_item db u w = false ∧
      can_update_work_item db u w = false ∧
      can_delete_work_item db u w = false) ∧
    (is_account_member db u sv.account_id = false →
      (∀ t, sv.team_id = some t → is_team_member db u t = false) →
      can_insert_survey db u sv = false ∧
      can_update_survey db u sv = false ∧
      can_delete_survey db u sv = false ∧
      (can_select_survey db u sv = true ↔
        sv.team_id = none ∧ sv.is_system_template = true)) := by
  refine ⟨?_, ?_, ?_⟩
  · intro h
    exact ⟨by simpa [can_select_sprint, tenant_isolation_sprints] using h,
      by simpa [can_insert_sprint, tenant_isolation_sprints] using h,
      by simpa [can_update_sprint, tenant_isolation_sprints] using h,
      by simpa [can_delete_sprint, tenant_isolation_sprints] using h⟩
  · intro h
    exact ⟨by simpa [can_select_work_item, tenant_isolation_work_items] using h,
      by simpa [can_insert_work_item, tenant_isolation_work_items] using h,
      by simpa [can_update_work_item, tenant_isolation_work_items] using h,
      by simpa [can_delete_work_item, tenant_isolation_work_items] using h⟩
  · intro _ hteam
    have hmanage : manage_surveys_policy db u sv = false := by
      unfold manage_surveys_policy
      cases hsv : sv.team_id with
      | none => rfl
      | some t =>
          have hm := hteam t hsv
          have hl : is_team_lead db u t = false := by
            cases hl2 : is_team_lead db u t with
            | false => rfl
            | true => rw [is_team_lead_member db u t hl2] at hm; cases hm
          exact hl
    refine ⟨hmanage, hmanage, hmanage, ?_⟩
    unfold can_select_survey view_surveys_policy
    rw [hmanage]
    cases hsv : sv.team_id with
    | none => simp
    | some t =>
        have hm := hteam t hsv
        simp [hm]

/-- Witness for the amended C1 theorem at a concrete state: actor 7
holds no memberships, every sprint and survey write is denied, and
survey reads are allowed exactly for the system template. -/
theorem tenant_isolation_amended_witness :
    can_select_sprint tenantDemoDb 7 ⟨1, 0, 0, 10, 20⟩ = false ∧
    can_delete_work_item tenantDemoDb 7 ⟨4, 0, none, .todo, none⟩ = false ∧
    can_insert_survey tenantDemoDb 7 ⟨3, 0, none, "Template", true⟩ = false ∧
    (can_select_survey tenantDemoDb 7 ⟨3, 0, none, "Template", true⟩ = true ↔
      (none : Option TeamId) = none ∧ true = true) := by
  have h1 := (tenant_isolation_amended tenantDemoDb 7 ⟨1, 0, 0, 10, 20⟩
    ⟨4, 0, none, .todo, none⟩ ⟨3, 0, none, "Template", true⟩).1 (by decide)
  have h2 := (tenant_isolation_amended tenantDemoDb 7 ⟨1, 0, 0, 10, 20⟩
    ⟨4, 0, none, .todo, none⟩ ⟨3, 0, none, "Template", true⟩).2.1 (by decide)
  have h3 := (tenant_isolation_amended tenantDemoDb 7 ⟨1, 0, 0, 10, 20⟩
    ⟨4, 0, none, .todo, none⟩ ⟨3, 0, none, "Template", true⟩).2.2 (by decide)
    (by intro t ht; cases ht)
  exact ⟨h1.1, h2.2.2.2, h3.1, h3.2.2.2⟩

/-- Claim C2 (confirmed): the stored procedure is all-or-nothing.  When
it returns success the created survey row and one question row per
requested question are present; when it raises for any reason (access
denied, an external failure of either insert, or a check constraint
violation on the questions) the state seen by the caller is exactly the
initial one, which in particular contains no row with the new survey
id. -/
theorem rpc_survey_atomicity (db : Db) (uid : Uid) (args : RpcArgs)
    (env : Nat → Option String) :
    (∀ sid, (run_create_survey_rpc db uid args env).2 = .ok sid →
      sid = freshSurveyId db ∧
      newSurveyRow db args.p_account_id args.p_team_id args.p_title ∈
        (run_create_survey_rpc db uid args env).1.surveys ∧
      ∀ q ∈ args.p_questions,
        rpcQuestionRow sid q ∈
          (run_create_survey_rpc db uid args env).1.survey_questions) ∧
    ((run_create_survey_rpc db uid args env).2.isOk = false →
      (run_create_survey_rpc db uid args env).1 = db ∧
      ∀ s ∈ (run_create_survey_rpc db uid args env).1.surveys,
        s.id ≠ freshSurveyId db) := by
  by_cases hm : is_account_member db uid args.p_account_id
  · cases h0 : env 0 with
    | some m =>
        have hres : run_create_survey_rpc db uid args env = (db, .error m) := by
          simp [run_create_survey_rpc, create_survey_with_questions, hm, h0]
        rw [hres]
        exact ⟨fun sid hs => (by cases hs), fun _ =>
          ⟨rfl, fun s hs => mem_surveys_id_ne_fresh db s hs⟩⟩
    | none =>
        cases hq : rpc_questions_insert_error
            (args.p_questions.map (rpcQuestionRow (freshSurveyId db))) env with
        | some m =>
            have hres : run_create_survey_rpc db uid args env =
                (db, .error m) := by
              simp [run_create_survey_rpc, create_survey_with_questions,
                hm, h0, hq]
            rw [hres]
            exact ⟨fun sid hs => (by cases hs), fun _ =>
              ⟨rfl, fun s hs => mem_surveys_id_ne_fresh db s hs⟩⟩
        | none =>
            have hres : run_create_survey_rpc db uid args env =
                ({ db with
                    surveys := db.surveys ++
                      [newSurveyRow db args.p_account_id args.p_team_id
                        args.p_title],
                    survey_questions := db.survey_questions ++
                      args.p_questions.map
                        (rpcQuestionRow (freshSurveyId db)) },
                  .ok (freshSurveyId db)) := by
              simp [run_create_survey_rpc, create_survey_with_questions,
                hm, h0, hq]
            rw [hres]
            constructor
            · intro sid hs
              injection hs with hs
              subst hs
              refine ⟨rfl, ?_, ?_⟩
              · exact List.mem_append_right _ (List.mem_singleton.mpr rfl)
              · intro q hqmem
                exact List.mem_append_right _
                  (List.mem_map_of_mem (rpcQuestionRow (freshSurveyId db))
                    hqmem)
            · intro habs
              cases habs
  · have hres : run_create_survey_rpc db uid args env =
        (db, .error "Access Denied: User is not a member of this account") := by
      simp [run_create_survey_rpc, create_survey_with_questions, hm]
    rw [hres]
    exact ⟨fun sid hs => (by cases hs), fun _ =>
      ⟨rfl, fun s hs => mem_surveys_id_ne_fresh db s hs⟩⟩

/-- Witness for the C2 theorem: a successful call by an account member
leaves the survey and its question stored; a call failing on an injected
surveys-insert error leaves the state untouched. -/
theorem rpc_survey_atomicity_witness :
    newSurveyRow
        ({ accounts := [⟨0, false⟩], account_members := [⟨0, 9, "member"⟩],
           team_members := [], sprints := [], work_items := [],
           surveys := [], survey_questions := [] } : Db) 0 none "Pulse" ∈
      (run_create_survey_rpc
        { accounts := [⟨0, false⟩], account_members := [⟨0, 9, "member"⟩],
          team_members := [], sprints := [], work_items := [],
          surveys := [], survey_questions := [] } 9
        ⟨0, none, "Pulse", true, [⟨"How was it", .text, 0, none⟩]⟩
        (fun _ => none)).1.surveys ∧
    rpcQuestionRow 1 ⟨"How was it", .text, 0, none⟩ ∈
      (run_create_survey_rpc
        { accounts := [⟨0, false⟩], account_members := [⟨0, 9, "member"⟩],
          team_members := [], sprints := [], work_items := [],
          surveys := [], survey_questions := [] } 9
        ⟨0, none, "Pulse", true, [⟨"How was it", .text, 0, none⟩]⟩
        (fun _ => none)).1.survey_questions ∧
    (run_create_survey_rpc
        { accounts := [⟨0, false⟩], account_members := [⟨0, 9, "member"⟩],
          team_members := [], sprints := [], work_items := [],
          surveys := [], survey_questions := [] } 9
        ⟨0, none, "Pulse", true, [⟨"How was it", .text, 0, none⟩]⟩
        (fun n => if n = 0 then some "schema mismatch" else none)).1 =
      { accounts := [⟨0, false⟩], account_members := [⟨0, 9, "member"⟩],
        team_members := [], sprints := [], work_items := [],
        surveys := [], survey_questions := [] } := by
  have hok := (rpc_survey_atomicity
    { accounts := [⟨0, false⟩], account_members := [⟨0, 9, "member"⟩],
      team_members := [], sprints := [], work_items := [],
      surveys := [], survey_questions := [] } 9
    ⟨0, none, "Pulse", true, [⟨"How was it", .text, 0, none⟩]⟩
    (fun _ => none)).1 1 rfl
  have herr := (rpc_survey_atomicity
    { accounts := [⟨0, false⟩], account_members := [⟨0, 9, "member"⟩],
      team_members := [], sprints := [], work_items := [],
      surveys := [], survey_questions := [] } 9
    ⟨0, none, "Pulse", true, [⟨"How was it", .text, 0, none⟩]⟩
    (fun n => if n = 0 then some "schema mismatch" else none)).2 rfl
  exact ⟨hok.2.1, hok.2.2 ⟨"How was it", .text, 0, none⟩
    (List.mem_singleton.mpr rfl), herr.1⟩

/-- A state where user 3 is an account member but holds no team
membership at all (in particular not a lead of team 0). -/
def leadDemoDb : Db :=
  { accounts := [⟨0, false⟩], account_members := [⟨0, 3, "member"⟩],
    team_members := [], sprints := [], work_items := [],
    surveys := [], survey_questions := [] }

/-- Claim C6 (counterexample): the atomic creation procedure only checks
account membership, so a user who is not a lead of the target team can
create a survey for that team through it, while the row level security
write policy would deny the same user a direct write. -/
theorem survey_lead_counterexample :
    is_team_lead leadDemoDb 3 0 = false ∧
    manage_surveys_policy leadDemoDb 3
      (newSurveyRow leadDemoDb 0 (some 0) "Pulse") = false ∧
    (create_survey_with_questions leadDemoDb 3
      ⟨0, some 0, "Pulse", true, []⟩ (fun _ => none)).isOk = true := by
  decide

/-- Claim C6 (amended theorem): direct writes to surveys and survey
questions through row level security require a lead TeamMembership in
the survey team; the atomic creation procedure instead requires only an
AccountMembership: a non-member is refused with Access Denied, and an
account member passes its security check regardless of team role (the
call then succeeds whenever no external failure is injected and every
question passes the response_type check). -/
theorem survey_lead_requirement_amended (db : Db) (u : Uid)
    (sv : SurveyRow) (q : QuestionRow) (args : RpcArgs)
    (env : Nat → Option String) :
    (can_insert_survey db u sv = true ∨ can_update_survey db u sv = true ∨
        can_delete_survey db u sv = true →
      ∃ t, sv.team_id = some t ∧ is_team_lead db u t = true) ∧
    (can_insert_question db u q = true →
      ∃ s ∈ db.surveys, s.id = q.survey_id ∧
        ∃ t, s.team_id = some t ∧ is_team_lead db u t = true) ∧
    (is_account_member db u args.p_account_id = false →
      create_survey_with_questions db u args env =
        .error "Access Denied: User is not a member of this account") ∧
    (is_account_member db u args.p_account_id = true → env 0 = none →
      env 1 = none →
      (args.p_questions.all (fun qq =>
        survey_questions_response_type_check
          (questionTypeStr qq.question_type)) = true) →
      (create_survey_with_questions db u args env).isOk = true) := by
  refine ⟨?_, ?_, ?_, ?_⟩
  · intro h
    have hpol : manage_surveys_policy db u sv = true := by
      rcases h with h | h | h
      · simpa [can_insert_survey] using h
      · simpa [can_update_survey] using h
      · simpa [can_delete_survey] using h
    unfold manage_surveys_policy at hpol
    cases hsv : sv.team_id with
    | none => rw [hsv] at hpol; cases hpol
    | some t => rw [hsv] at hpol; exact ⟨t, rfl, hpol⟩
  · intro h
    have hpol : manage_questions_policy db u q = true := by
      simpa [can_insert_question] using h
    unfold manage_questions_policy at hpol
    rcases List.any_eq_true.mp hpol with ⟨s, hs, hp⟩
    rw [Bool.and_eq_true] at hp
    refine ⟨s, hs, by simpa using hp.1, ?_⟩
    cases hst : s.team_id with
    | none => rw [hst] at hp; cases hp.2
    | some t => rw [hst] at hp; exact ⟨t, rfl, hp.2⟩
  · intro hm
    simp [create_survey_with_questions, hm]
  · intro hm h0 h1 hall
    have hq : rpc_questions_insert_error
        (args.p_questions.map (rpcQuestionRow (freshSurveyId db))) env =
        none := by
      unfold rpc_questions_insert_error
      rw [h1]
      have : (args.p_questions.map (rpcQuestionRow (freshSurveyId db))).all
          (fun r => survey_questions_response_type_check r.response_type) =
          true := by
        rw [List.all_eq_true]
        intro r hr
        rcases List.mem_map.mp hr with ⟨qq, hqq, rfl⟩
        exact List.all_eq_true.mp hall qq hqq
      rw [this]
      rfl
    simp [create_survey_with_questions, hm, h0, hq]
    rfl

/-- Witness for the amended C6 theorem at concrete inputs. -/
theorem survey_lead_requirement_amended_witness :
    (∃ t, (some 0 : Option TeamId) = some t ∧
      is_team_lead
        ({ accounts := [], account_members := [],
           team_members := [⟨0, 2, "lead"⟩], sprints := [], work_items := [],
           surveys := [], survey_questions := [] } : Db) 2 t = true) ∧
    create_survey_with_questions leadDemoDb 8
        ⟨0, some 0, "Pulse", true, []⟩ (fun _ => none) =
      .error "Access Denied: User is not a member of this account" ∧
    (create_survey_with_questions leadDemoDb 3
        ⟨0, some 0, "Pulse", true, [⟨"Mood", .text, 0, none⟩]⟩
        (fun _ => none)).isOk = true := by
  refine ⟨?_, ?_, ?_⟩
  · exact (survey_lead_requirement_amended
      { accounts := [], account_members := [],
        team_members := [⟨0, 2, "lead"⟩], sprints := [], work_items := [],
        surveys := [], survey_questions := [] } 2
      ⟨9, 0, some 0, "S", false⟩ ⟨0, "", "", 0, true⟩
      ⟨0, none, "", true, []⟩ (fun _ => none)).1 (Or.inl (by decide))
  · exact (survey_lead_requirement_amended leadDemoDb 8
      ⟨9, 0, some 0, "S", false⟩ ⟨0, "", "", 0, true⟩
      ⟨0, some 0, "Pulse", true, []⟩ (fun _ => none)).2.2.1 (by decide)
  · exact (survey_lead_requirement_amended leadDemoDb 3
      ⟨9, 0, some 0, "S", false⟩ ⟨0, "", "", 0, true⟩
      ⟨0, some 0, "Pulse", true, [⟨"Mood", .text, 0, none⟩]⟩
      (fun _ => none)).2.2.2 (by decide) rfl rfl (by decide)

/-- The compensating delete of a just-inserted survey with a fresh id
restores the surveys table and leaves the stored questions untouched
(no stored question can reference the fresh id when every stored
question has a stored parent). -/
theorem delete_fresh_restores (db : Db) (u : Uid) (row : SurveyRow)
    (hid : row.id = freshSurveyId db)
    (hwf : ∀ q ∈ db.survey_questions, ∃ s ∈ db.surveys, s.id = q.survey_id)
    (hpol : manage_surveys_policy
      { db with surveys := db.surveys ++ [row] } u row = true) :
    (delete_survey_rls { db with surveys := db.surveys ++ [row] } u
      (freshSurveyId db)).surveys = db.surveys ∧
    (delete_survey_rls { db with surveys := db.surveys ++ [row] } u
      (freshSurveyId db)).survey_questions = db.survey_questions := by
  constructor
  · show (db.surveys ++ [row]).filter (fun s =>
      !(s.id == freshSurveyId db && manage_surveys_policy
        { db with surveys := db.surveys ++ [row] } u s)) = db.surveys
    rw [List.filter_append]
    have hold : db.surveys.filter (fun s =>
        !(s.id == freshSurveyId db && manage_surveys_policy
          { db with surveys := db.surveys ++ [row] } u s)) = db.surveys := by
      rw [List.filter_eq_self]
      intro s hs
      have hne : (s.id == freshSurveyId db) = false := by
        have := mem_surveys_id_ne_fresh db s hs
        simpa using this
      simp [hne]
    have hnew : [row].filter (fun s =>
        !(s.id == freshSurveyId db && manage_surveys_policy
          { db with surveys := db.surveys ++ [row] } u s)) = [] := by
      have hbeq : (row.id == freshSurveyId db) = true := by
        simpa using hid
      simp [List.filter, hbeq, hpol]
    rw [hold, hnew, List.append_nil]
  · show db.survey_questions.filter (fun q =>
      !(q.survey_id == freshSurveyId db &&
        (db.surveys ++ [row]).any (fun s =>
          s.id == freshSurveyId db && manage_surveys_policy
            { db with surveys := db.surveys ++ [row] } u s))) =
      db.survey_questions
    rw [List.filter_eq_self]
    intro q hq
    rcases hwf q hq with ⟨s, hs, hsid⟩
    have hne : (q.survey_id == freshSurveyId db) = false := by
      have := mem_surveys_id_ne_fresh db s hs
      rw [hsid] at this
      simpa using this
    simp [hne]

/-- Claim C7 (confirmed): in the compensating path, whenever the parent
survey insert succeeds and the questions insert fails, the just-created
survey row is deleted again (the surveys and survey_questions tables end
exactly as they started) and the response is 500 carrying the questions
failure message itself. -/
theorem two_step_compensation (db : Db) (u : Uid)
    (input : CreateSurveyInput) (env : Nat → Option String) (m : String)
    (hwf : ∀ q ∈ db.survey_questions, ∃ s ∈ db.surveys, s.id = q.survey_id)
    (h0 : env 0 = none)
    (h1 : manage_surveys_policy db u
      (newSurveyRow db input.account_id input.team_id input.title) = true)
    (h2 : route_questions_insert_error
      { db with surveys := db.surveys ++
          [newSurveyRow db input.account_id input.team_id input.title] } u
      (routeQuestionRows (freshSurveyId db) input.questions) env = some m) :
    (post_surveys_two_step db u input env).db.surveys = db.surveys ∧
    (post_surveys_two_step db u input env).db.survey_questions =
      db.survey_questions ∧
    (post_surveys_two_step db u input env).status = 500 ∧
    (post_surveys_two_step db u input env).body = .err m := by
  have hres : post_surveys_two_step db u input env =
      ⟨delete_survey_rls
        { db with surveys := db.surveys ++
            [newSurveyRow db input.account_id input.team_id input.title] } u
        (freshSurveyId db), 500, .err m⟩ := by
    simp [post_surveys_two_step, insert_survey_rls, h0, h1, h2]
  rw [hres]
  have hrestore := delete_fresh_restores db u
    (newSurveyRow db input.account_id input.team_id input.title) rfl hwf h1
  exact ⟨hrestore.1, hrestore.2, rfl, rfl⟩

/-- Witness for the C7 theorem: a lead of team 0 posts a survey with one
scale question; the parent insert passes the policy, the questions
insert fails on the response_type check constraint, the state is
restored and the response is 500 with the constraint message. -/
theorem two_step_compensation_witness :
    (post_surveys_two_step
      { accounts := [⟨0, false⟩], account_members := [⟨0, 2, "member"⟩],
        team_members := [⟨0, 2, "lead"⟩], sprints := [], work_items := [],
        surveys := [], survey_questions := [] } 2
      ⟨0, some 0, "T", true, [⟨"Focus level", .scale, 0, true⟩]⟩
      (fun _ => none)).db.surveys = [] ∧
    (post_surveys_two_step
      { accounts := [⟨0, false⟩], account_members := [⟨0, 2, "member"⟩],
        team_members := [⟨0, 2, "lead"⟩], sprints := [], work_items := [],
        surveys := [], survey_questions := [] } 2
      ⟨0, some 0, "T", true, [⟨"Focus level", .scale, 0, true⟩]⟩
      (fun _ => none)).status = 500 ∧
    (post_surveys_two_step
      { accounts := [⟨0, false⟩], account_members := [⟨0, 2, "member"⟩],
        team_members := [⟨0, 2, "lead"⟩], sprints := [], work_items := [],
        surveys := [], survey_questions := [] } 2
      ⟨0, some 0, "T", true, [⟨"Focus level", .scale, 0, true⟩]⟩
      (fun _ => none)).body =
      .err "new row for relation survey_questions violates check constraint survey_questions_response_type_check" := by
  have h := two_step_compensation
    { accounts := [⟨0, false⟩], account_members := [⟨0, 2, "member"⟩],
      team_members := [⟨0, 2, "lead"⟩], sprints := [], work_items := [],
      surveys := [], survey_questions := [] } 2
    ⟨0, some 0, "T", true, [⟨"Focus level", .scale, 0, true⟩]⟩
    (fun _ => none)
    "new row for relation survey_questions violates check constraint survey_questions_response_type_check"
    (by intro q hq; cases hq) rfl (by decide) (by decide)
  exact ⟨h.1, h.2.2.1, h.2.2.2⟩

/-- A question list containing a scale or boolean question fails the
bulk response_type check. -/
theorem rows_with_bad_type_fail_check (rows : List QuestionRow)
    (q : QuestionRow) (hq : q ∈ rows)
    (hbad : q.response_type = "scale" ∨ q.response_type = "boolean") :
    (rows.all (fun r =>
      survey_questions_response_type_check r.response_type)) = false := by
  rw [Bool.eq_false_iff]
  intro hall
  have := List.all_eq_true.mp hall q hq
  rcases hbad with hb | hb <;> rw [hb] at this <;> cases this

/-- A row list that passes the bulk check and was built from validated
question types contains only text rows. -/
theorem rpc_rows_all_check_text (sid : SurveyId) (qs : List RpcQuestion)
    (hall : ((qs.map (rpcQuestionRow sid)).all (fun r =>
      survey_questions_response_type_check r.response_type)) = true)
    (qr : QuestionRow) (hqr : qr ∈ qs.map (rpcQuestionRow sid)) :
    qr.response_type = "text" := by
  have hchk := List.all_eq_true.mp hall qr hqr
  rcases List.mem_map.mp hqr with ⟨q0, hq0, rfl⟩
  have htext := (check_passes_iff_text q0.question_type).mp hchk
  show questionTypeStr q0.question_type = "text"
  rw [htext]
  rfl

/-- Same fact for the rows the route builds. -/
theorem route_rows_all_check_text (sid : SurveyId) (qs : List InputQuestion)
    (hall : ((routeQuestionRows sid qs).all (fun r =>
      survey_questions_response_type_check r.response_type)) = true)
    (qr : QuestionRow) (hqr : qr ∈ routeQuestionRows sid qs) :
    qr.response_type = "text" := by
  have hchk := List.all_eq_true.mp hall qr hqr
  rcases List.mem_map.mp hqr with ⟨q0, hq0, rfl⟩
  have htext := (check_passes_iff_text q0.question_type).mp hchk
  show questionTypeStr q0.question_type = "text"
  rw [htext]
  rfl

/-- Claim C10 (confirmed): any survey-creation request containing a
scale or boolean question (both admitted by QuestionTypeEnum) fails the
response_type check constraint when its questions insert runs, so the
stored procedure never returns success for it and the pseudo-transaction
route always answers 500 leaving the stored questions unchanged; and on
both paths every question row ever persisted beyond the initial state
has response_type text. -/
theorem question_type_mismatch (db : Db) (uid u : Uid) (args : RpcArgs)
    (input : CreateSurveyInput) (env : Nat → Option String)
    (hwf : ∀ q ∈ db.survey_questions, ∃ s ∈ db.surveys, s.id = q.survey_id) :
    ((∃ q ∈ args.p_questions,
        q.question_type = .scale ∨ q.question_type = .boolean) →
      (create_survey_with_questions db uid args env).isOk = false) ∧
    ((∃ q ∈ input.questions,
        q.question_type = .scale ∨ q.question_type = .boolean) →
      (post_surveys_two_step db u input env).status = 500 ∧
      (post_surveys_two_step db u input env).db.survey_questions =
        db.survey_questions) ∧
    (∀ qr ∈ (run_create_survey_rpc db uid args env).1.survey_questions,
      qr ∈ db.survey_questions ∨ qr.response_type = "text") ∧
    (∀ qr ∈ (post_surveys_two_step db u input env).db.survey_questions,
      qr ∈ db.survey_questions ∨ qr.response_type = "text") := by
  refine ⟨?_, ?_, ?_, ?_⟩
  · rintro ⟨q, hqmem, hbad⟩
    by_cases hm : is_account_member db uid args.p_account_id
    · cases h0 : env 0 with
      | some m => simp [create_survey_with_questions, hm, h0, Except.isOk, Except.toBool]
      | none =>
          have hallf : ((args.p_questions.map
              (rpcQuestionRow (freshSurveyId db))).all (fun r =>
              survey_questions_response_type_check r.response_type)) =
              false := by
            refine rows_with_bad_type_fail_check _
              (rpcQuestionRow (freshSurveyId db) q)
              (List.mem_map_of_mem _ hqmem) ?_
            rcases hbad with hb | hb
            · exact Or.inl (by simp [rpcQuestionRow, hb, questionTypeStr])
            · exact Or.inr (by simp [rpcQuestionRow, hb, questionTypeStr])
          have hqe : ∃ mm, rpc_questions_insert_error
              (args.p_questions.map (rpcQuestionRow (freshSurveyId db)))
              env = some mm := by
            unfold rpc_questions_insert_error
            cases h1 : env 1 with
            | some mm => exact ⟨mm, rfl⟩
            | none => exact ⟨_, by rw [hallf]; rfl⟩
          rcases hqe with ⟨mm, hqe⟩
          simp [create_survey_with_questions, hm, h0, hqe, Except.isOk, Except.toBool]
    · simp [create_survey_with_questions, hm, Except.isOk, Except.toBool]
  · rintro ⟨q, hqmem, hbad⟩
    cases h0 : env 0 with
    | some m => constructor <;> simp [post_surveys_two_step, h0]
    | none =>
        by_cases hp : manage_surveys_policy db u
            (newSurveyRow db input.account_id input.team_id input.title) = true
        · have hallf : ((routeQuestionRows (freshSurveyId db)
              input.questions).all (fun r =>
              survey_questions_response_type_check r.response_type)) =
              false := by
            refine rows_with_bad_type_fail_check _
              ({ survey_id := freshSurveyId db,
                 question_text := q.question_text,
                 response_type := questionTypeStr q.question_type,
                 order_index := q.order_index,
                 is_required := q.is_required } : QuestionRow)
              (List.mem_map_of_mem _ hqmem) ?_
            rcases hbad with hb | hb
            · exact Or.inl (by simp [hb, questionTypeStr])
            · exact Or.inr (by simp [hb, questionTypeStr])
          have hqe : ∃ mm, route_questions_insert_error
              { db with surveys := db.surveys ++
                  [newSurveyRow db input.account_id input.team_id
                    input.title] } u
              (routeQuestionRows (freshSurveyId db) input.questions) env =
              some mm := by
            unfold route_questions_insert_error
            cases h1 : env 1 with
            | some mm => exact ⟨mm, rfl⟩
            | none =>
                by_cases hr : ((routeQuestionRows (freshSurveyId db)
                    input.questions).all (fun r => manage_questions_policy
                      { db with surveys := db.surveys ++
                          [newSurveyRow db input.account_id input.team_id
                            input.title] } u r)) = true
                · exact ⟨_, by rw [if_pos hr, hallf]; rfl⟩
                · exact ⟨_, by rw [if_neg hr]⟩
          rcases hqe with ⟨mm, hqe⟩
          have hres : post_surveys_two_step db u input env =
              ⟨delete_survey_rls
                { db with surveys := db.surveys ++
                    [newSurveyRow db input.account_id input.team_id
                      input.title] } u (freshSurveyId db), 500, .err mm⟩ := by
            simp [post_surveys_two_step, insert_survey_rls, h0, hp, hqe]
          rw [hres]
          exact ⟨rfl, (delete_fresh_restores db u _ rfl hwf hp).2⟩
        · constructor <;>
            simp [post_surveys_two_step, insert_survey_rls, h0, hp]
  · intro qr hqr
    by_cases hm : is_account_member db uid args.p_account_id
    · cases h0 : env 0 with
      | some m =>
          refine Or.inl ?_
          have hres : run_create_survey_rpc db uid args env =
              (db, .error m) := by
            simp [run_create_survey_rpc, create_survey_with_questions, hm, h0]
          rw [hres] at hqr
          exact hqr
      | none =>
          cases hq : rpc_questions_insert_error
              (args.p_questions.map (rpcQuestionRow (freshSurveyId db)))
              env with
          | some m =>
              refine Or.inl ?_
              have hres : run_create_survey_rpc db uid args env =
                  (db, .error m) := by
                simp [run_create_survey_rpc, create_survey_with_questions,
                  hm, h0, hq]
              rw [hres] at hqr
              exact hqr
          | none =>
              have hall : ((args.p_questions.map
                  (rpcQuestionRow (freshSurveyId db))).all (fun r =>
                  survey_questions_response_type_check r.response_type)) =
                  true := by
                unfold rpc_questions_insert_error at hq
                cases h1 : env 1 with
                | some mm => rw [h1] at hq; cases hq
                | none =>
                    rw [h1] at hq
                    by_cases hc : ((args.p_questions.map
                        (rpcQuestionRow (freshSurveyId db))).all (fun r =>
                        survey_questions_response_type_check
                          r.response_type)) = true
                    · exact hc
                    · rw [if_neg hc] at hq; cases hq
              have hres : run_create_survey_rpc db uid args env =
                  ({ db with
                      surveys := db.surveys ++
                        [newSurveyRow db args.p_account_id args.p_team_id
                          args.p_title],
                      survey_questions := db.survey_questions ++
                        args.p_questions.map
                          (rpcQuestionRow (freshSurveyId db)) },
                    .ok (freshSurveyId db)) := by
                simp [run_create_survey_rpc, create_survey_with_questions,
                  hm, h0, hq]
              rw [hres] at hqr
              rcases List.mem_append.mp hqr with hold | hnew
              · exact Or.inl hold
              · exact Or.inr (rpc_rows_all_check_text _ _ hall qr hnew)
    · refine Or.inl ?_
      have hres : run_create_survey_rpc db uid args env =
          (db, .error "Access Denied: User is not a member of this account") := by
        simp [run_create_survey_rpc, create_survey_with_questions, hm]
      rw [hres] at hqr
      exact hqr
  · intro qr hqr
    cases h0 : env 0 with
    | some m =>
        refine Or.inl ?_
        have hres : post_surveys_two_step db u input env =
            ⟨db, 500, .err m⟩ := by
          simp [post_surveys_two_step, h0]
        rw [hres] at hqr
        exact hqr
    | none =>
        by_cases hp : manage_surveys_policy db u
            (newSurveyRow db input.account_id input.team_id input.title) = true
        · cases hq : route_questions_insert_error
              { db with surveys := db.surveys ++
                  [newSurveyRow db input.account_id input.team_id
                    input.title] } u
              (routeQuestionRows (freshSurveyId db) input.questions) env with
          | some m =>
              refine Or.inl ?_
              have hres : post_surveys_two_step db u input env =
                  ⟨delete_survey_rls
                    { db with surveys := db.surveys ++
                        [newSurveyRow db input.account_id input.team_id
                          input.title] } u (freshSurveyId db), 500,
                    .err m⟩ := by
                simp [post_surveys_two_step, insert_survey_rls, h0, hp, hq]
              rw [hres] at hqr
              have hsub : qr ∈ db.survey_questions := by
                have := List.mem_filter.mp hqr
                exact this.1
              exact hsub
          | none =>
              have hall : ((routeQuestionRows (freshSurveyId db)
                  input.questions).all (fun r =>
                  survey_questions_response_type_check r.response_type)) =
                  true := by
                unfold route_questions_insert_error at hq
                cases h1 : env 1 with
                | some mm => rw [h1] at hq; cases hq
                | none =>
                    rw [h1] at hq
                    by_cases hr : ((routeQuestionRows (freshSurveyId db)
                        input.questions).all (fun r =>
                        manage_questions_policy
                          { db with surveys := db.surveys ++
                              [newSurveyRow db input.account_id
                                input.team_id input.title] } u r)) = true
                    · rw [if_pos hr] at hq
                      by_cases hc : ((routeQuestionRows (freshSurveyId db)
                          input.questions).all (fun r =>
                          survey_questions_response_type_check
                            r.response_type)) = true
                      · exact hc
                      · rw [if_neg hc] at hq; cases hq
                    · rw [if_neg hr] at hq; cases hq
              have hres : post_surveys_two_step db u input env =
                  ⟨{ db with
                      surveys := db.surveys ++
                        [newSurveyRow db input.account_id input.team_id
                          input.title],
                      survey_questions := db.survey_questions ++
                        routeQuestionRows (freshSurveyId db)
                          input.questions },
                    201, .created
                      (newSurveyRow db input.account_id input.team_id
                        input.title)
                      (routeQuestionRows (freshSurveyId db)
                        input.questions)⟩ := by
                simp [post_surveys_two_step, insert_survey_rls, h0, hp, hq]
              rw [hres] at hqr
              rcases List.mem_append.mp hqr with hold | hnew
              · exact Or.inl hold
              · exact Or.inr (route_rows_all_check_text _ _ hall qr hnew)
        · refine Or.inl ?_
          have hres : post_surveys_two_step db u input env =
              ⟨db, 500,
                .err "new row violates row-level security policy for table surveys"⟩ := by
            simp [post_surveys_two_step, insert_survey_rls, h0, hp]
          rw [hres] at hqr
          exact hqr

/-- Witness for the C10 theorem: a boolean question makes the stored
procedure fail for an account member; a scale question makes the route
answer 500 with the questions table unchanged; a persisted question row
of a successful request is either pre-existing or of type text. -/
theorem question_type_mismatch_witness :
    (create_survey_with_questions leadDemoDb 3
      ⟨0, some 0, "Pulse", true, [⟨"Blocked today", .boolean, 0, none⟩]⟩
      (fun _ => none)).isOk = false ∧
    (post_surveys_two_step
      { accounts := [⟨0, false⟩], account_members := [⟨0, 2, "member"⟩],
        team_members := [⟨0, 2, "lead"⟩], sprints := [], work_items := [],
        surveys := [], survey_questions := [] } 2
      ⟨0, some 0, "T", true, [⟨"Focus", .scale, 0, true⟩]⟩
      (fun _ => none)).status = 500 ∧
    (rpcQuestionRow 1 ⟨"Mood", .text, 0, none⟩ ∈
        leadDemoDb.survey_questions ∨
      (rpcQuestionRow 1 ⟨"Mood", .text, 0, none⟩).response_type = "text") := by
  refine ⟨?_, ?_, ?_⟩
  · exact (question_type_mismatch leadDemoDb 3 0
      ⟨0, some 0, "Pulse", true, [⟨"Blocked today", .boolean, 0, none⟩]⟩
      ⟨0, none, "", true, []⟩ (fun _ => none)
      (by intro q hq; cases hq)).1
      ⟨⟨"Blocked today", .boolean, 0, none⟩, List.mem_singleton.mpr rfl,
        Or.inr rfl⟩
  · exact ((question_type_mismatch
      { accounts := [⟨0, false⟩], account_members := [⟨0, 2, "member"⟩],
        team_members := [⟨0, 2, "lead"⟩], sprints := [], work_items := [],
        surveys := [], survey_questions := [] } 0 2
      ⟨0, none, "", true, []⟩
      ⟨0, some 0, "T", true, [⟨"Focus", .scale, 0, true⟩]⟩
      (fun _ => none) (by intro q hq; cases hq)).2.1
      ⟨⟨"Focus", .scale, 0, true⟩, List.mem_singleton.mpr rfl,
        Or.inl rfl⟩).1
  · exact (question_type_mismatch leadDemoDb 3 0
      ⟨0, none, "Pulse", true, [⟨"Mood", .text, 0, none⟩]⟩
      ⟨0, none, "", true, []⟩ (fun _ => none)
      (by intro q hq; cases hq)).2.2.1
      (rpcQuestionRow 1 ⟨"Mood", .text, 0, none⟩)
      (by decide)

/-- Setting the flag of the account found under an id rewrites the found
row and nothing else the lookup sees. -/
theorem find_set_flag_same (l : List AccountRow) (a : AccountId) (f : Bool) :
    (l.map (fun r => if r.id == a then { r with is_test_tenant := f }
      else r)).find? (fun r => r.id == a) =
    (l.find? (fun r => r.id == a)).map
      (fun r => { r with is_test_tenant := f }) := by
  induction l with
  | nil => rfl
  | cons r t ih =>
      by_cases h : (r.id == a) = true
      · simp only [List.map_cons, List.find?_cons, if_pos h]
        simp [h, -List.find?_map]
      · have h2 : (r.id == a) = false := by
          cases hc : r.id == a
          · rfl
          · exact absurd hc h
        simp only [List.map_cons, List.find?_cons, if_neg h]
        simp [h2, -List.find?_map] at ih ⊢
        exact ih

/-- Updating the flag of account b does not change the lookup of a
different account a. -/
theorem find_set_flag_other (l : List AccountRow) (a b : AccountId)
    (f : Bool) (hne : b ≠ a) :
    (l.map (fun r => if r.id == b then { r with is_test_tenant := f }
      else r)).find? (fun r => r.id == a) =
    l.find? (fun r => r.id == a) := by
  induction l with
  | nil => rfl
  | cons r t ih =>
      by_cases hb : (r.id == b) = true
      · have hbid : r.id = b := by simpa using hb
        have ha : (r.id == a) = false := by
          subst hbid
          simpa using hne
        simp only [List.map_cons, List.find?_cons, if_pos hb]
        simp [ha, -List.find?_map] at ih ⊢
        exact ih
      · have hb2 : (r.id == b) = false := by
          cases hc : r.id == b
          · rfl
          · exact absurd hc hb
        simp only [List.map_cons, List.find?_cons, if_neg hb]
        cases ha : (r.id == a)
        · simp only [ha, cond_false]
          simp [-List.find?_map] at ih ⊢
          exact ih
        · simp [ha, -List.find?_map]

/-- The flag of the row found for an account the user belongs to occurs
among the flags the uncorrelated policy subquery collects. -/
theorem flag_mem_visible (db : Db) (u : Uid) (a : AccountId)
    (r : AccountRow) (hfind : db.accounts.find? (fun x => x.id == a) = some r)
    (hm : is_account_member db u a = true) :
    r.is_test_tenant ∈ visible_test_flags db u := by
  have hmem := List.mem_of_find?_eq_some hfind
  have hpred := List.find?_some hfind
  have hid : r.id = a := by simpa using hpred
  refine List.mem_map.mpr ⟨r, List.mem_filter.mpr ⟨hmem, ?_⟩, rfl⟩
  rw [hid]
  exact hm

/-- One is_test_tenant update step, whoever issues it and whatever value
it proposes, leaves a stored true flag true. -/
theorem flag_true_step (db : Db) (s : Uid × AccountId × Bool)
    (a : AccountId) (h : account_flag db a = some true) :
    account_flag (apply_account_update db s) a = some true := by
  obtain ⟨u0, b, f⟩ := s
  unfold apply_account_update update_account
  by_cases hc : (db.accounts.any (fun r => r.id == b) &&
      is_account_member db u0 b) = true
  · rw [if_pos hc]
    cases hch : update_own_accounts_check db u0 f with
    | error e => exact h
    | ok _ =>
        by_cases hab : b = a
        · subst hab
          cases hfind : db.accounts.find? (fun x => x.id == b) with
          | none => rw [account_flag, hfind] at h; cases h
          | some r =>
              have hrt : r.is_test_tenant = true := by
                rw [account_flag, hfind] at h
                simpa using h
              by_cases hf : f = true
              · subst hf
                show (((db.accounts.map (fun x =>
                    if x.id == b then { x with is_test_tenant := true }
                    else x)).find? (fun x => x.id == b)).map
                    (fun x => x.is_test_tenant)) = some true
                rw [find_set_flag_same, hfind]
                rfl
              · exfalso
                have hfalse : f = false := by
                  cases f
                  · rfl
                  · exact absurd rfl hf
                subst hfalse
                have hc2 := hc
                rw [Bool.and_eq_true] at hc2
                have hmemflag : true ∈ visible_test_flags db u0 := by
                  have := flag_mem_visible db u0 b r hfind hc2.2
                  rwa [hrt] at this
                unfold update_own_accounts_check at hch
                cases hv : visible_test_flags db u0 with
                | nil => rw [hv] at hmemflag; cases hmemflag
                | cons x xs =>
                    cases xs with
                    | nil =>
                        have hx : x = true := by
                          rw [hv] at hmemflag
                          simpa using hmemflag
                        subst hx
                        rw [hv] at hch
                        simp at hch
                    | cons y ys =>
                        rw [hv] at hch
                        simp at hch
        · show (((db.accounts.map (fun x =>
            if x.id == b then { x with is_test_tenant := f }
            else x)).find? (fun x => x.id == a)).map
            (fun x => x.is_test_tenant)) = some true
          rw [find_set_flag_other db.accounts a b f hab]
          exact h
  · rw [if_neg hc]
    exact h

/-- A state with two accounts, both with the flag unset, and one user
belonging to both. -/
def testTenantDemoDb : Db :=
  { accounts := [⟨0, false⟩, ⟨1, false⟩],
    account_members := [⟨0, 5, "owner"⟩, ⟨1, 5, "owner"⟩],
    team_members := [], sprints := [], work_items := [],
    surveys := [], survey_questions := [] }

/-- Claim C8 (counterexample): a no-op update (writing false over a
stored false) issued by a member of two accounts is rejected: the
stored-value subquery of the policy is uncorrelated (where id = id binds
both ids to the inner row), so it returns one row per visible account
and errors as a multi-row scalar subquery. -/
theorem test_tenant_noop_counterexample :
    is_account_member testTenantDemoDb 5 0 = true ∧
    account_flag testTenantDemoDb 0 = some false ∧
    (update_account testTenantDemoDb 5 0 false).isOk = false := by
  decide

/-- Claim C8 (amended theorem): a member setting the flag to true always
succeeds; an update writing false over a stored true is always rejected
(by value comparison when exactly one account is visible, by the
multi-row subquery error otherwise); a no-op writing false over a stored
false succeeds exactly when the actor sees exactly one account; and a
stored true flag survives any sequence of update attempts. -/
theorem test_tenant_monotonic_amended (db : Db) (u : Uid) (a : AccountId)
    (l : List (Uid × AccountId × Bool)) :
    (is_account_member db u a = true → account_flag db a = some true →
      (update_account db u a false).isOk = false) ∧
    ((update_account db u a true).isOk = true) ∧
    (is_account_member db u a = true → account_flag db a = some false →
      ((update_account db u a false).isOk = true ↔
        (visible_test_flags db u).length = 1)) ∧
    (account_flag db a = some true →
      account_flag (l.foldl apply_account_update db) a = some true) := by
  refine ⟨?_, ?_, ?_, ?_⟩
  · intro hm hflag
    cases hfind : db.accounts.find? (fun x => x.id == a) with
    | none => rw [account_flag, hfind] at hflag; cases hflag
    | some r =>
        have hrt : r.is_test_tenant = true := by
          rw [account_flag, hfind] at hflag
          simpa using hflag
        have hany : db.accounts.any (fun x => x.id == a) = true := by
          have hpr := List.find?_some hfind
          exact List.any_eq_true.mpr ⟨r, List.mem_of_find?_eq_some hfind,
            hpr⟩
        have hmemflag : true ∈ visible_test_flags db u := by
          have := flag_mem_visible db u a r hfind hm
          rwa [hrt] at this
        have hcheck : ∃ e, update_own_accounts_check db u false =
            .error e := by
          unfold update_own_accounts_check
          cases hv : visible_test_flags db u with
          | nil => exact ⟨_, rfl⟩
          | cons x xs =>
              cases xs with
              | nil =>
                  have hx : x = true := by
                    rw [hv] at hmemflag
                    simpa using hmemflag
                  subst hx
                  exact ⟨_, rfl⟩
              | cons y ys => exact ⟨_, rfl⟩
        rcases hcheck with ⟨e, hcheck⟩
        have hupd : update_account db u a false = .error e := by
          unfold update_account
          rw [if_pos (by rw [hany, hm]; rfl)]
          rw [hcheck]
        rw [hupd]
        rfl
  · unfold update_account
    by_cases hc : (db.accounts.any (fun r => r.id == a) &&
        is_account_member db u a) = true
    · rw [if_pos hc]
      have hcheck : update_own_accounts_check db u true = .ok () := by
        unfold update_own_accounts_check
        rw [if_pos rfl]
      rw [hcheck]
      rfl
    · rw [if_neg hc]
      rfl
  · intro hm hflag
    cases hfind : db.accounts.find? (fun x => x.id == a) with
    | none => rw [account_flag, hfind] at hflag; cases hflag
    | some r =>
        have hrf : r.is_test_tenant = false := by
          rw [account_flag, hfind] at hflag
          simpa using hflag
        have hany : db.accounts.any (fun x => x.id == a) = true := by
          have hpr := List.find?_some hfind
          exact List.any_eq_true.mpr ⟨r, List.mem_of_find?_eq_some hfind,
            hpr⟩
        have hmemflag : false ∈ visible_test_flags db u := by
          have := flag_mem_visible db u a r hfind hm
          rwa [hrf] at this
        constructor
        · intro hOk
          cases hv : visible_test_flags db u with
          | nil => rw [hv] at hmemflag; cases hmemflag
          | cons x xs =>
              cases xs with
              | nil => rfl
              | cons y ys =>
                  exfalso
                  have hcheck : update_own_accounts_check db u false =
                      .error "more than one row returned by a subquery used as an expression" := by
                    unfold update_own_accounts_check
                    rw [hv]
                    rfl
                  have hupd : update_account db u a false = .error
                      "more than one row returned by a subquery used as an expression" := by
                    unfold update_account
                    rw [if_pos (by rw [hany, hm]; rfl)]
                    rw [hcheck]
                  rw [hupd] at hOk
                  cases hOk
        · intro hlen
          cases hv : visible_test_flags db u with
          | nil => rw [hv] at hmemflag; cases hmemflag
          | cons x xs =>
              cases xs with
              | nil =>
                  have hx : x = false := by
                    rw [hv] at hmemflag
                    simpa using hmemflag
                  subst hx
                  have hcheck : update_own_accounts_check db u false =
                      .ok () := by
                    unfold update_own_accounts_check
                    rw [hv]
                    rfl
                  have hupd : update_account db u a false = .ok
                      { db with accounts := db.accounts.map (fun r2 =>
                        if r2.id == a then { r2 with is_test_tenant := false }
                        else r2) } := by
                    unfold update_account
                    rw [if_pos (by rw [hany, hm]; rfl)]
                    rw [hcheck]
                  rw [hupd]
                  rfl
              | cons y ys => rw [hv] at hlen; cases hlen
  · intro hflag
    induction l generalizing db with
    | nil => exact hflag
    | cons s t ih =>
        have hstep := flag_true_step db s a hflag
        simpa [List.foldl_cons] using ih (apply_account_update db s) hstep

/-- A state with one account (flag unset) and its single member. -/
def testTenantSoloDb : Db :=
  { accounts := [⟨0, false⟩], account_members := [⟨0, 5, "owner"⟩],
    team_members := [], sprints := [], work_items := [],
    surveys := [], survey_questions := [] }

/-- Witness for the amended C8 theorem: the single-member cases behave
as claimed, and after setting the flag true a later attempted false
leaves it true. -/
theorem test_tenant_monotonic_amended_witness :
    (update_account
      { accounts := [⟨0, true⟩], account_members := [⟨0, 5, "owner"⟩],
        team_members := [], sprints := [], work_items := [],
        surveys := [], survey_questions := [] } 5 0 false).isOk = false ∧
    (update_account testTenantSoloDb 5 0 true).isOk = true ∧
    (update_account testTenantSoloDb 5 0 false).isOk = true ∧
    account_flag (([(5, 0, false)] : List (Uid × AccountId × Bool)).foldl
      apply_account_update
      (apply_account_update testTenantSoloDb (5, 0, true))) 0 = some true := by
  refine ⟨?_, ?_, ?_, ?_⟩
  · exact (test_tenant_monotonic_amended
      { accounts := [⟨0, true⟩], account_members := [⟨0, 5, "owner"⟩],
        team_members := [], sprints := [], work_items := [],
        surveys := [], survey_questions := [] } 5 0 []).1
      (by decide) (by decide)
  · exact (test_tenant_monotonic_amended testTenantSoloDb 5 0 []).2.1
  · exact ((test_tenant_monotonic_amended testTenantSoloDb 5 0 []).2.2.1
      (by decide) (by decide)).mpr (by decide)
  · exact (test_tenant_monotonic_amended
      (apply_account_update testTenantSoloDb (5, 0, true)) 5 0
      [(5, 0, false)]).2.2.2 (by decide)

end SprintPulse
